import Mathlib

/-
Verification of the Multisensor Dashboard core (occupancy estimation,
threshold evaluation, trend forecasting) against a shallow embedding of
the repository code.

Modelling conventions:
- Python floats are modelled as exact rationals.  The verified inputs stay
  away from binary-rounding boundaries, so the rational computation agrees
  with the float computation on them.
- Timestamps are rational numbers of seconds since a fixed epoch aligned
  to an hour boundary (so flooring to a quarter hour is flooring to a
  multiple of 900 seconds), and datetime subtraction is rational
  subtraction.
- Fallible Python code (float() casts, division by zero, list indexing,
  scipy linregress) is modelled with Except, the error string naming the
  Python exception class that the corresponding line raises.
-/

namespace Multisensor

/-- A raw current sensor value as it sits in the data dictionary: None
(initial state), a string coming from the live HTTP source (for example
the Home Assistant state string, which can be the sentinel "unknown"),
or a number coming from the historic source or the synthetic generator. -/
inductive PyVal where
  | none
  | str (s : String)
  | num (q : ℚ)
deriving DecidableEq

/-- Digits of a decimal literal read by Python float(); returns none when a
non-digit character occurs.  The empty list yields 0 so that forms such as
"123." parse, matching Python. -/
def digitsToNat (cs : List Char) : Option ℕ :=
  cs.foldl
    (fun acc c =>
      acc.bind fun n => if c.isDigit then some (10 * n + (c.toNat - 48)) else Option.none)
    (some 0)

/-- Unsigned decimal literal: digits with at most one decimal point.  At
least one digit must be present overall. -/
def parseDecimalCore (cs : List Char) : Option ℚ :=
  let intPart := cs.takeWhile (fun c => c ≠ '.' )
  let rest := cs.dropWhile (fun c => c ≠ '.' )
  match rest with
  | [] =>
    if intPart.isEmpty then Option.none
    else (digitsToNat intPart).map fun n => (n : ℚ)
  | _ :: fracPart =>
    if intPart.isEmpty ∧ fracPart.isEmpty then Option.none
    else
      match digitsToNat intPart, digitsToNat fracPart with
      | some i, some f => some ((i : ℚ) + (f : ℚ) / (10 : ℚ) ^ fracPart.length)
      | _, _ => Option.none

/-- Python float() on a string: optional sign, then a decimal literal.
Strings that are not decimal literals (such as the sentinel "unknown")
fail.  Scientific notation and the special values inf and nan do not occur
in this data and are not modelled. -/
def parseDecimal (s : String) : Option ℚ :=
  match s.toList with
  | '-' :: rest => (parseDecimalCore rest).map fun q => -q
  | '+' :: rest => parseDecimalCore rest
  | cs => parseDecimalCore cs

/-- Python float() on a raw sensor value: numbers convert, strings are
parsed (raising ValueError when unparseable, as for "unknown"), and None
raises TypeError. -/
def pyFloat : PyVal → Except String ℚ
  | PyVal.num q => Except.ok q
  | PyVal.str s =>
    match parseDecimal s with
    | some q => Except.ok q
    | Option.none => Except.error "ValueError"
  | PyVal.none => Except.error "TypeError"

/-- Python int() on a float: truncation toward zero. -/
def pyInt (q : ℚ) : ℤ := if 0 ≤ q then ⌊q⌋ else ⌈q⌉

/-- Python round() to an integer: nearest integer, ties going to the even
neighbour, modelled on exact rationals. -/
def pyRound (q : ℚ) : ℤ :=
  if Int.fract q < 1 / 2 then ⌊q⌋
  else if 1 / 2 < Int.fract q then ⌊q⌋ + 1
  else if ⌊q⌋ % 2 = 0 then ⌊q⌋ else ⌊q⌋ + 1

/-- Embedding of Sensor_Data.calculate_occupancy from src/src/sensor_data.py.
The raw CO2 current value is cast with float() (which can raise), the room
volume is cast with int() (truncation), a truthiness test on the float
CO2 value selects the computing branch, and the division raises
ZeroDivisionError when the denominator is zero. -/
def calculate_occupancy (rawCo2 : PyVal) (volume : ℚ)
    (baseline_co2 : ℚ) (emission_rate : ℚ) (time_elapsed : ℚ) :
    Except String ℤ :=
  match pyFloat rawCo2 with
  | Except.error e => Except.error e
  | Except.ok current_co2 =>
    let room_volume : ℤ := pyInt volume
    if current_co2 ≠ 0 then
      let co2_diff := current_co2 - baseline_co2
      let co2_produced := co2_diff * (room_volume : ℚ) / 1000
      if emission_rate * (time_elapsed / 3600) = 0 then
        Except.error "ZeroDivisionError"
      else
        let people_count := co2_produced / (emission_rate * (time_elapsed / 3600))
        Except.ok (max 0 (pyRound people_count))
    else
      Except.ok 0

/-- Modelled from the spec: the occupancy formula as section 4.2 states it,
with the room volume used at its full precision (no int() truncation).
Used to compare the spec formula with the code. -/
def spec_occupancy (current_co2 room_volume baseline_co2 emission_rate elapsed : ℚ) : ℤ :=
  max 0 (pyRound (((current_co2 - baseline_co2) * room_volume / 1000) /
    (emission_rate * (elapsed / 3600))))

/-- A sensor value as it reaches check_for_warnings: either the string
sentinel "unknown" or a numeric value (numeric strings arriving from the
live source are represented by the rational they parse to, since
check_for_warnings compares float(value)). -/
inductive SensorValue where
  | unknown
  | num (q : ℚ)
deriving DecidableEq

/-- One entry of the warnings dictionary in Dashboard.check_for_warnings:
an optional (threshold, message) pair for each of the two tiers. -/
structure Thresholds where
  too_low : Option (ℚ × String)
  too_high : Option (ℚ × String)
deriving DecidableEq

/-- The warnings dictionary of Dashboard.check_for_warnings in
src/app.py, verbatim. -/
def warningsTable : String → Option Thresholds
  | "Temperature" => some
      ⟨some (18, "It\x27s too cold to concentrate. Consider turning up the heat."),
       some (26, "It\x27s too hot to concentrate. Consider opening a window.")⟩
  | "Humidity" => some
      ⟨some (30, "The air is too dry. Consider increasing ventilation or opening a window."),
       some (60, "The air is too humid. Consider opening a window.")⟩
  | "CO2" => some
      ⟨Option.none,
       some (1000, "CO2 levels are high. Open a window for fresh air.")⟩
  | "IAQ" => some
      ⟨Option.none,
       some (100, "Indoor Air Quality is poor. Consider increasing ventilation or opening a window.")⟩
  | "UV Index" => some
      ⟨Option.none,
       some (6, "UV Index is high. Consider closing the blinds or staying out of direct sunlight.")⟩
  | "Microphone Noise Level" => some
      ⟨Option.none,
       some (80, "Noise levels are high. Consider reducing the noise or moving to a quieter space.")⟩
  | "Pressure" => some
      ⟨some (980, "Atmospheric pressure is low. It might feel stuffy. Consider opening a window."),
       some (1030, "Atmospheric pressure is high. Consider opening a window to ventilate the room.")⟩
  | "Light" => some
      ⟨some (50, "Light levels are too low. Consider turning on more lights."),
       some (1000, "Light levels are too bright. Consider adjusting the lighting.")⟩
  | "Gas Resistance" => some
      ⟨Option.none,
       some (1000, "Gas resistance is high. Open a window or ventilate the room.")⟩
  | "Occupancy" => some
      ⟨Option.none,
       some (10, "Too many people in the room. Consider moving to a less crowded room.")⟩
  | _ => Option.none

/-- The too_high check of check_for_warnings followed by the fall-through
default, reached when the too_low check did not fire. -/
def checkHighOrDefault (sensor : String) (th : Thresholds) (v : ℚ) : String × Bool :=
  match th.too_high with
  | some hi =>
    if hi.1 < v then (hi.2, false)
    else (sensor ++ " value is within a comfortable range.", true)
  | Option.none => (sensor ++ " value is within a comfortable range.", true)

/-- Embedding of Dashboard.check_for_warnings from src/app.py: the unknown
sentinel short-circuits, then for sensors in the warnings dictionary the
too_low bound is checked with a strict less-than, then the too_high bound
with a strict greater-than, and otherwise (including for sensor kinds
absent from the dictionary) the in-range message is returned.  The unit
parameter is accepted and ignored, as in the source. -/
def check_for_warnings (sensor : String) (value : SensorValue) (unit : String) :
    String × Bool :=
  match value with
  | SensorValue.unknown => (sensor ++ " has no current value.", true)
  | SensorValue.num v =>
    match warningsTable sensor with
    | some th =>
      match th.too_low with
      | some lo =>
        if v < lo.1 then (lo.2, false)
        else checkHighOrDefault sensor th v
      | Option.none => checkHighOrDefault sensor th v
    | Option.none => (sensor ++ " value is within a comfortable range.", true)

/-- The sensor kinds for which predict_data skips the turning-point
search (the list literal on line 741 of src/app.py). -/
def excludedKinds : List String := ["Microphone Noise Level", "Occupancy", "Light"]

/-- Whether index i of the value list is a strict local extremum: strictly
greater than both neighbours or strictly less than both neighbours (the
condition of the backward for-loop in predict_data). -/
def isTurningPoint (values : List ℚ) (i : ℕ) : Bool :=
  match values[i-1]?, values[i]?, values[i+1]? with
  | some a, some b, some c => decide ((a < b ∧ c < b) ∨ (b < a ∧ b < c))
  | _, _, _ => false

/-- Backward scan of the turning-point loop: checks indices n, n-1, ..., 1
and returns the first (hence most recent) strict local extremum. -/
def scanTurning (values : List ℚ) : ℕ → Option ℕ
  | 0 => Option.none
  | n + 1 =>
    if isTurningPoint values (n + 1) then some (n + 1)
    else scanTurning values n

/-- The whole turning-point search of predict_data: Python iterates
range(len(values) - 2, 0, -1), i.e. indices len-2 down to 1. -/
def findTurningPoint (values : List ℚ) : Option ℕ :=
  scanTurning values (values.length - 2)

/-- The history-window selection of predict_data, acting on the series of
(timestamp, value) pairs (the source keeps two parallel lists built
pairwise, represented here zipped).  lastTs is timestamps[-1].  Default
window: points within two hours of the last timestamp; for the Light
sensor the whole series; and when the turning-point search (skipped for
the excluded kinds) finds an index, the suffix of the full series from
that index. -/
def selectWindow (sensor : String) (series : List (ℚ × ℚ)) (lastTs : ℚ) :
    List (ℚ × ℚ) :=
  let two_hours_ago := lastTs - 7200
  let recent :=
    if sensor = "Light" then series
    else series.filter fun p => two_hours_ago ≤ p.1
  match
    (if sensor ∈ excludedKinds then Option.none
     else findTurningPoint (series.map Prod.snd)) with
  | some k => series.drop k
  | Option.none => recent

/-- Embedding of scipy.stats.linregress as used by predict_data: the
ordinary least-squares slope and intercept, raising ValueError when the
x values have zero variance (all identical, as for duplicate
timestamps). -/
def linregress (xs ys : List ℚ) : Except String (ℚ × ℚ) :=
  let n : ℚ := xs.length
  let xm := xs.sum / n
  let ym := ys.sum / n
  let ssxm := ((xs.map fun x => (x - xm) * (x - xm)).sum) / n
  let ssxym := (((xs.zip ys).map fun p => (p.1 - xm) * (p.2 - ym)).sum) / n
  if ssxm = 0 then Except.error "ValueError"
  else
    let slope := ssxym / ssxm
    Except.ok (slope, ym - slope * xm)

/-- The regression step of predict_data on a selected window: times are
elapsed seconds since the first timestamp of the window. -/
def forecastFit (window : List (ℚ × ℚ)) : Except String (ℚ × ℚ) :=
  match window.head? with
  | Option.none => Except.error "IndexError"
  | some first =>
    linregress (window.map fun p => p.1 - first.1) (window.map Prod.snd)

/-- The fit-and-project step of predict_data on a selected window: fit the
line, floor the current time down to the nearest quarter hour, generate 25
future instants 15 minutes apart, evaluate the line at each (as seconds
since the first window timestamp) and clamp each prediction at 0. -/
def forecastWindow (window : List (ℚ × ℚ)) (now : ℚ) :
    Except String (List ℚ × List ℚ) :=
  match window.head? with
  | Option.none => Except.error "IndexError"
  | some first =>
    match forecastFit window with
    | Except.error e => Except.error e
    | Except.ok si =>
      let nearest_quarter_hour : ℚ := 900 * (⌊now / 900⌋ : ℚ)
      let future_times := (List.range 25).map fun i : ℕ => nearest_quarter_hour + 900 * (i : ℚ)
      let predictions := future_times.map fun ft => max 0 (si.1 * (ft - first.1) + si.2)
      Except.ok (future_times, predictions)

/-- Embedding of Dashboard.predict_data from src/app.py.  The series is
the caller-supplied parallel lists of timestamps and values, zipped; now
is the current wall-clock time (datetime.now()).  The first line of the
source indexes timestamps[-1], an IndexError on an empty series. -/
def predict_data (sensor : String) (series : List (ℚ × ℚ)) (now : ℚ) :
    Except String (List ℚ × List ℚ) :=
  match series.getLast? with
  | Option.none => Except.error "IndexError"
  | some last => forecastWindow (selectWindow sensor series last.1) now

/-- The future-timestamp filter of Dashboard.show_current_data: history
entries are (value, timestamp) pairs as stored by the Sensor Store; the
code builds the two parallel lists and appends, in order, exactly the
entries whose timestamp is at or before now.  Returns (timestamps,
values). -/
def filterFuture (history : List (ℚ × ℚ)) (now : ℚ) : List ℚ × List ℚ :=
  let timestamps_all := history.map Prod.snd
  let values_all := history.map Prod.fst
  (timestamps_all.zip values_all).foldl
    (fun acc p => if p.1 ≤ now then (acc.1 ++ [p.1], acc.2 ++ [p.2]) else acc)
    ([], [])

/-- The forecasting step of Dashboard.show_current_data: after filtering
future timestamps, predict_data is invoked whenever more than one point
remains; its exceptions are not caught by the caller, so an error value
here is an uncaught exception crashing the evaluation of that sensor. -/
def show_current_data_forecast (sensor : String) (history : List (ℚ × ℚ)) (now : ℚ) :
    Except String (Option (List ℚ × List ℚ)) :=
  let tv := filterFuture history now
  if 1 < tv.1.length then (predict_data sensor (tv.1.zip tv.2) now).map some
  else Except.ok Option.none

/-- C8: for every sensor kind, evaluating the unknown sentinel returns the
no-current-value message paired with in_range true; absence of data never
produces a warning and the comfort table is not consulted. -/
theorem unknown_sentinel_in_range (sensor unit : String) :
    check_for_warnings sensor SensorValue.unknown unit =
      (sensor ++ " has no current value.", true) := rfl

/-- C10: for every sensor kind absent from the comfort table and every
numeric value, threshold evaluation is total and returns the in-range
message with in_range true. -/
theorem unknown_kind_in_range (sensor unit : String) (v : ℚ)
    (h : warningsTable sensor = Option.none) :
    check_for_warnings sensor (SensorValue.num v) unit =
      (sensor ++ " value is within a comfortable range.", true) := by
  unfold check_for_warnings
  rw [h]

/-- Witness for C10 at the live-fetch kind Detection Distance and a value
far below any sane floor. -/
theorem unknown_kind_in_range_witness :
    warningsTable "Detection Distance" = Option.none ∧
    check_for_warnings "Detection Distance" (SensorValue.num (-1000000)) "cm" =
      ("Detection Distance value is within a comfortable range.", true) :=
  ⟨rfl, unknown_kind_in_range "Detection Distance" "cm" (-1000000) rfl⟩

/-- C7: for every sensor kind in the comfort table and every numeric value,
the too_low bound is checked first with a strict less-than (its fixed
message returned with in_range false on breach), then the too_high bound
with a strict greater-than, and when neither bound breaches (values
exactly at a bound included) the in-range message is returned with
in_range true. -/
theorem threshold_evaluation_order (sensor unit : String) (th : Thresholds) (v : ℚ)
    (htab : warningsTable sensor = some th) :
    (∀ lo, th.too_low = some lo → v < lo.1 →
      check_for_warnings sensor (SensorValue.num v) unit = (lo.2, false)) ∧
    (∀ hi, th.too_high = some hi → hi.1 < v →
      (∀ lo, th.too_low = some lo → ¬ v < lo.1) →
      check_for_warnings sensor (SensorValue.num v) unit = (hi.2, false)) ∧
    ((∀ lo, th.too_low = some lo → ¬ v < lo.1) →
     (∀ hi, th.too_high = some hi → ¬ hi.1 < v) →
      check_for_warnings sensor (SensorValue.num v) unit =
        (sensor ++ " value is within a comfortable range.", true)) := by
  have hred : check_for_warnings sensor (SensorValue.num v) unit =
      (match th.too_low with
       | some lo => if v < lo.1 then (lo.2, false) else checkHighOrDefault sensor th v
       | Option.none => checkHighOrDefault sensor th v) := by
    simp only [check_for_warnings, htab]
  refine ⟨?_, ?_, ?_⟩
  · intro lo hlo hv
    rw [hred, hlo]
    dsimp only
    rw [if_pos hv]
  · intro hi hhi hv hnl
    have hhigh : checkHighOrDefault sensor th v = (hi.2, false) := by
      simp only [checkHighOrDefault, hhi]
      rw [if_pos hv]
    rw [hred]
    cases hl : th.too_low with
    | none => exact hhigh
    | some lo =>
      dsimp only
      rw [if_neg (hnl lo hl)]
      exact hhigh
  · intro hnl hnh
    have hdef : checkHighOrDefault sensor th v =
        (sensor ++ " value is within a comfortable range.", true) := by
      cases hh : th.too_high with
      | none => simp only [checkHighOrDefault, hh]
      | some hi =>
        simp only [checkHighOrDefault, hh]
        rw [if_neg (hnh hi hh)]
    rw [hred]
    cases hl : th.too_low with
    | none => exact hdef
    | some lo =>
      dsimp only
      rw [if_neg (hnl lo hl)]
      exact hdef

/-- Witness for C7: Temperature at 17.9 breaches the exclusive low bound,
Temperature at exactly 18.0 is in range. -/
theorem threshold_evaluation_order_witness :
    check_for_warnings "Temperature" (SensorValue.num (179 / 10)) "°C" =
      ("It\x27s too cold to concentrate. Consider turning up the heat.", false) ∧
    check_for_warnings "Temperature" (SensorValue.num 18) "°C" =
      ("Temperature value is within a comfortable range.", true) := by
  constructor
  · exact (threshold_evaluation_order "Temperature" "°C" _ (179 / 10) rfl).1
      (18, "It\x27s too cold to concentrate. Consider turning up the heat.") rfl
      (by norm_num)
  · exact (threshold_evaluation_order "Temperature" "°C" _ 18 rfl).2.2
      (fun lo hlo => by injection hlo with h; subst h; norm_num)
      (fun hi hhi => by injection hhi with h; subst h; norm_num)

/-- C2 (refuted by the code): the occupancy estimator does fail.  On the
sentinel "unknown" the float() cast raises ValueError, on an absent (None)
value it raises TypeError, and on a zero effective denominator
(emission_rate = 0 or elapsed_seconds = 0) the division raises
ZeroDivisionError.  Only the room-volume-0 part of the claim holds. -/
theorem occupancy_estimator_raises :
    calculate_occupancy (PyVal.str "unknown") 50 550 18 3600 = Except.error "ValueError" ∧
    calculate_occupancy PyVal.none 50 550 18 3600 = Except.error "TypeError" ∧
    calculate_occupancy (PyVal.num 1000) 50 550 0 3600 = Except.error "ZeroDivisionError" ∧
    calculate_occupancy (PyVal.num 1000) 50 550 18 0 = Except.error "ZeroDivisionError" ∧
    calculate_occupancy (PyVal.num 1000) 0 550 18 3600 = Except.ok 0 := by
  refine ⟨rfl, rfl, ?_, ?_, ?_⟩
  · simp only [calculate_occupancy, pyFloat]
    rw [if_pos (show (1000 : ℚ) ≠ 0 by norm_num),
      if_pos (show (0 : ℚ) * (3600 / 3600) = 0 by norm_num)]
  · simp only [calculate_occupancy, pyFloat]
    rw [if_pos (show (1000 : ℚ) ≠ 0 by norm_num),
      if_pos (show (18 : ℚ) * (0 / 3600) = 0 by norm_num)]
  · simp only [calculate_occupancy, pyFloat]
    rw [if_pos (show (1000 : ℚ) ≠ 0 by norm_num),
      if_neg (show ¬ (18 : ℚ) * (3600 / 3600) = 0 by norm_num)]
    norm_num [pyInt, pyRound, Int.fract]

/-- Counterexample to C3 as stated: the code truncates the room volume with
int() before applying the formula, so at current_co2 = 100550, room volume
0.9, baseline 550, emission rate 18, elapsed 3600 the code returns 0 while
the spec formula (full-precision volume) gives 5. -/
theorem occupancy_formula_counterexample :
    calculate_occupancy (PyVal.num 100550) (9 / 10) 550 18 3600 = Except.ok 0 ∧
    spec_occupancy 100550 (9 / 10) 550 18 3600 = 5 := by
  constructor
  · simp only [calculate_occupancy, pyFloat]
    rw [if_pos (show (100550 : ℚ) ≠ 0 by norm_num),
      if_neg (show ¬ (18 : ℚ) * (3600 / 3600) = 0 by norm_num)]
    norm_num [pyInt, pyRound, Int.fract]
  · norm_num [spec_occupancy, pyRound, Int.fract]

/-- C3 (amended): for every numeric CO2 value (nonzero, per the truthiness
guard) and nonzero denominator, the occupancy estimate equals
round(((co2 - baseline) * int(volume) / 1000) / (er * (elapsed/3600)))
floored at 0, with the room volume truncated toward zero by int(). -/
theorem occupancy_formula_truncated_volume (co2 vol baseline er elapsed : ℚ)
    (hco2 : co2 ≠ 0) (hden : er * (elapsed / 3600) ≠ 0) :
    calculate_occupancy (PyVal.num co2) vol baseline er elapsed =
      Except.ok (max 0 (pyRound (((co2 - baseline) * (pyInt vol : ℚ) / 1000) /
        (er * (elapsed / 3600))))) := by
  simp only [calculate_occupancy, pyFloat]
  rw [if_pos hco2, if_neg hden]

/-- Witness for C3 (amended), reproducing the worked example of the spec:
current_co2 = 1000, room volume 67.39, defaults, giving 2 people. -/
theorem occupancy_formula_truncated_volume_witness :
    calculate_occupancy (PyVal.num 1000) (6739 / 100) 550 18 3600 = Except.ok 2 := by
  rw [occupancy_formula_truncated_volume 1000 (6739 / 100) 550 18 3600
    (by norm_num) (by norm_num)]
  norm_num [pyInt, pyRound, Int.fract]

lemma scanTurning_eq_some_iff (values : List ℚ) (n k : ℕ) :
    scanTurning values n = some k ↔
      1 ≤ k ∧ k ≤ n ∧ isTurningPoint values k = true ∧
        ∀ j, k < j → j ≤ n → isTurningPoint values j = false := by
  induction n with
  | zero =>
    simp only [scanTurning]
    constructor
    · intro h; exact Option.noConfusion h
    · rintro ⟨h1, h2, -, -⟩; omega
  | succ n ih =>
    simp only [scanTurning]
    by_cases h : isTurningPoint values (n + 1) = true
    · rw [if_pos h]
      constructor
      · intro he
        injection he with he
        subst he
        exact ⟨by omega, by omega, h, fun j hj hj2 => by omega⟩
      · rintro ⟨h1, h2, h3, h4⟩
        have hk : k = n + 1 := by
          by_contra hne
          have hfalse := h4 (n + 1) (by omega) (by omega)
          rw [hfalse] at h
          simp at h
        subst hk; rfl
    · rw [if_neg h]
      have hfalse : isTurningPoint values (n + 1) = false := by
        revert h; cases isTurningPoint values (n + 1) <;> simp
      rw [ih]
      constructor
      · rintro ⟨h1, h2, h3, h4⟩
        refine ⟨h1, by omega, h3, fun j hj hj2 => ?_⟩
        by_cases hj3 : j ≤ n
        · exact h4 j hj hj3
        · have hj4 : j = n + 1 := by omega
          subst hj4; exact hfalse
      · rintro ⟨h1, h2, h3, h4⟩
        have hk : k ≤ n := by
          by_contra hgt
          have hk2 : k = n + 1 := by omega
          subst hk2
          rw [hfalse] at h3
          simp at h3
        exact ⟨h1, hk, h3, fun j hj hj2 => h4 j hj (by omega)⟩

lemma scanTurning_eq_none_iff (values : List ℚ) (n : ℕ) :
    scanTurning values n = Option.none ↔
      ∀ j, 1 ≤ j → j ≤ n → isTurningPoint values j = false := by
  induction n with
  | zero =>
    simp only [scanTurning]
    constructor
    · intro _ j h1 h2; omega
    · intro _; trivial
  | succ n ih =>
    simp only [scanTurning]
    by_cases h : isTurningPoint values (n + 1) = true
    · rw [if_pos h]
      constructor
      · intro he; exact Option.noConfusion he
      · intro hall
        have hf := hall (n + 1) (by omega) (by omega)
        rw [hf] at h; simp at h
    · rw [if_neg h]
      have hfalse : isTurningPoint values (n + 1) = false := by
        revert h; cases isTurningPoint values (n + 1) <;> simp
      rw [ih]
      constructor
      · intro hall j h1 h2
        by_cases hj : j ≤ n
        · exact hall j h1 hj
        · have hj2 : j = n + 1 := by omega
          subst hj2; exact hfalse
      · intro hall j h1 h2
        exact hall j h1 (by omega)

/-- C1: for a sensor kind outside the excluded set and a series of at least
two points, if the backward scan over the full series finds a most recent
strict local extremum at index k, the selected window is exactly the
suffix of the series from k (so the least-squares fit runs over values
from index k on, with times in seconds measured from the timestamp at
index k); if no such index exists, the window is the default one of all
points within two hours of the last timestamp. -/
theorem turning_point_window_selection (sensor : String) (series : List (ℚ × ℚ))
    (now lastTs : ℚ)
    (hs : sensor ∉ excludedKinds) (hlen : 2 ≤ series.length) :
    (∀ k, 1 ≤ k → k + 1 < series.length →
      isTurningPoint (series.map Prod.snd) k = true →
      (∀ j, k < j → j + 1 < series.length →
        isTurningPoint (series.map Prod.snd) j = false) →
      selectWindow sensor series lastTs = series.drop k ∧
      (∀ pk, series[k]? = some pk →
        forecastFit (series.drop k) =
          linregress ((series.drop k).map fun p => p.1 - pk.1)
            ((series.drop k).map Prod.snd)) ∧
      predict_data sensor series now = forecastWindow (series.drop k) now) ∧
    ((∀ j, 1 ≤ j → j + 1 < series.length →
        isTurningPoint (series.map Prod.snd) j = false) →
      selectWindow sensor series lastTs =
        (series.filter fun p => lastTs - 7200 ≤ p.1) ∧
      (∀ last, series.getLast? = some last →
        predict_data sensor series now =
          forecastWindow (series.filter fun p => last.1 - 7200 ≤ p.1) now)) := by
  have hlight : ¬ sensor = "Light" := by
    intro he; exact hs (by rw [he]; decide)
  have hmaplen : (series.map Prod.snd).length = series.length := series.length_map Prod.snd
  have hlast : ∃ last, series.getLast? = some last := by
    cases hg : series.getLast? with
    | none =>
      rw [List.getLast?_eq_none_iff] at hg
      subst hg; simp at hlen
    | some last => exact ⟨last, rfl⟩
  constructor
  · intro k hk1 hk2 hext hrecent
    have hfind : findTurningPoint (series.map Prod.snd) = some k := by
      unfold findTurningPoint
      rw [scanTurning_eq_some_iff]
      refine ⟨hk1, by omega, hext, fun j hj hj2 => hrecent j hj (by omega)⟩
    have hsel : ∀ lt : ℚ, selectWindow sensor series lt = series.drop k := by
      intro lt
      unfold selectWindow
      rw [if_neg hs, hfind]
    refine ⟨hsel lastTs, ?_, ?_⟩
    · intro pk hpk
      have hhead : (series.drop k).head? = some pk := by
        rw [List.head?_eq_getElem?, List.getElem?_drop, Nat.add_zero, hpk]
      unfold forecastFit
      rw [hhead]
    · obtain ⟨last, hg⟩ := hlast
      unfold predict_data
      rw [hg]
      show forecastWindow (selectWindow sensor series last.1) now = _
      rw [hsel]
  · intro hnone
    have hfind : findTurningPoint (series.map Prod.snd) = Option.none := by
      unfold findTurningPoint
      rw [scanTurning_eq_none_iff]
      intro j h1 h2
      exact hnone j h1 (by omega)
    have hsel : ∀ lt : ℚ, selectWindow sensor series lt =
        (series.filter fun p => lt - 7200 ≤ p.1) := by
      intro lt
      simp only [selectWindow, if_neg hs, if_neg hlight, hfind]
    refine ⟨hsel lastTs, ?_⟩
    intro last hg
    unfold predict_data
    rw [hg]
    show forecastWindow (selectWindow sensor series last.1) now = _
    rw [hsel]

/-- Witness for C1: a CO2 series with values 1, 5, 3, 4 has its most
recent strict local extremum (a minimum) at index 2, and the selected
window is the suffix from index 2. -/
theorem turning_point_window_selection_witness :
    selectWindow "CO2" [((0 : ℚ), (1 : ℚ)), (60, 5), (120, 3), (180, 4)] 180 =
      [((120 : ℚ), (3 : ℚ)), (180, 4)] := by
  have h := (turning_point_window_selection "CO2"
    [((0 : ℚ), (1 : ℚ)), (60, 5), (120, 3), (180, 4)] 0 180
    (by decide) (by decide)).1 2 (by decide) (by decide) (by decide)
    (fun j hj hj2 => by simp at hj2; omega)
  rw [h.1]
  rfl

/-- C5: for the Light sensor the selected window is always the entire
provided series (the two-hour cutoff is replaced by the full history and
the turning-point search is skipped), and the forecast fit therefore runs
over the whole series. -/
theorem light_uses_full_series (series : List (ℚ × ℚ)) (lastTs now : ℚ) :
    selectWindow "Light" series lastTs = series ∧
    (∀ last, series.getLast? = some last →
      predict_data "Light" series now = forecastWindow series now) := by
  have hsel : ∀ lt : ℚ, selectWindow "Light" series lt = series := fun lt => rfl
  refine ⟨hsel lastTs, ?_⟩
  intro last hg
  unfold predict_data
  rw [hg]
  show forecastWindow (selectWindow "Light" series last.1) now = _
  rw [hsel]

/-- Witness for C5 at a concrete two-point series with a turning-point-free
shape and timestamps spread beyond any cutoff. -/
theorem light_uses_full_series_witness :
    selectWindow "Light" [((0 : ℚ), (1 : ℚ)), (100, 2)] 100 =
      [((0 : ℚ), (1 : ℚ)), (100, 2)] ∧
    predict_data "Light" [((0 : ℚ), (1 : ℚ)), (100, 2)] 5 =
      forecastWindow [((0 : ℚ), (1 : ℚ)), (100, 2)] 5 :=
  ⟨(light_uses_full_series [((0 : ℚ), (1 : ℚ)), (100, 2)] 100 5).1,
   (light_uses_full_series [((0 : ℚ), (1 : ℚ)), (100, 2)] 100 5).2 (100, 2) rfl⟩

lemma foldl_future_filter (l : List (ℚ × ℚ)) (now : ℚ) (acc : List ℚ × List ℚ) :
    l.foldl (fun acc p => if p.1 ≤ now then (acc.1 ++ [p.1], acc.2 ++ [p.2]) else acc) acc =
      (acc.1 ++ (l.filter fun p => p.1 ≤ now).map Prod.fst,
       acc.2 ++ (l.filter fun p => p.1 ≤ now).map Prod.snd) := by
  induction l generalizing acc with
  | nil => simp
  | cons p l ih =>
    by_cases h : p.1 ≤ now
    · simp [List.foldl_cons, List.filter_cons, h, ih]
    · simp [List.foldl_cons, List.filter_cons, h, ih]

/-- C9: the series handed to the forecaster contains exactly the history
readings with timestamp at or before now, in their original order: the
future-timestamp filter of show_current_data equals a plain order
preserving filter, and the forecasting step runs predict_data on exactly
that filtered series (whenever it has more than one point). -/
theorem future_readings_filtered (sensor : String) (history : List (ℚ × ℚ)) (now : ℚ) :
    filterFuture history now =
      ((history.filter fun e => e.2 ≤ now).map Prod.snd,
       (history.filter fun e => e.2 ≤ now).map Prod.fst) ∧
    show_current_data_forecast sensor history now =
      (if 1 < (history.filter fun e => e.2 ≤ now).length then
        (predict_data sensor
          ((history.filter fun e => e.2 ≤ now).map fun e => (e.2, e.1)) now).map some
      else Except.ok Option.none) := by
  have hzip : (history.map Prod.snd).zip (history.map Prod.fst) =
      history.map fun e => (e.2, e.1) := by
    rw [List.zip_map']
  have h1 : filterFuture history now =
      ((history.filter fun e => e.2 ≤ now).map Prod.snd,
       (history.filter fun e => e.2 ≤ now).map Prod.fst) := by
    simp only [filterFuture]
    rw [hzip, foldl_future_filter]
    rw [List.filter_map, List.map_map, List.map_map]
    exact Prod.ext rfl rfl
  refine ⟨h1, ?_⟩
  unfold show_current_data_forecast
  rw [h1]
  by_cases hl : 1 < (history.filter fun e => e.2 ≤ now).length
  · rw [if_pos (by simpa using hl), if_pos hl]
    rw [List.zip_map']
  · rw [if_neg (by simpa using hl), if_neg hl]

/-- C4: whenever predict_data succeeds it returns exactly 25 future
instants in chronological order, 15 minutes (900 seconds) apart, the
i-th being now floored to the nearest quarter hour plus 900 i seconds
(offsets 0 to 360 minutes), and the predictions are the fitted line
evaluated at those instants clamped at a floor of zero, hence all
nonnegative. -/
theorem forecast_shape (sensor : String) (series : List (ℚ × ℚ)) (now : ℚ)
    (ft preds : List ℚ)
    (h : predict_data sensor series now = Except.ok (ft, preds)) :
    ft.length = 25 ∧ preds.length = 25 ∧
    (∀ i : ℕ, i < 25 → ft[i]? = some (900 * (⌊now / 900⌋ : ℚ) + 900 * (i : ℚ))) ∧
    (∃ slope intercept t0, preds = ft.map fun t => max 0 (slope * (t - t0) + intercept)) ∧
    (∀ p ∈ preds, 0 ≤ p) := by
  unfold predict_data at h
  cases hg : series.getLast? with
  | none => rw [hg] at h; exact Except.noConfusion h
  | some last =>
    rw [hg] at h
    have h2 : forecastWindow (selectWindow sensor series last.1) now =
        Except.ok (ft, preds) := h
    unfold forecastWindow at h2
    cases hh : (selectWindow sensor series last.1).head? with
    | none => rw [hh] at h2; exact Except.noConfusion h2
    | some first =>
      rw [hh] at h2
      cases hf : forecastFit (selectWindow sensor series last.1) with
      | error e => rw [hf] at h2; exact Except.noConfusion h2
      | ok si =>
        rw [hf] at h2
        have h3 : (((List.range 25).map fun i : ℕ =>
            900 * (⌊now / 900⌋ : ℚ) + 900 * (i : ℚ)),
            ((List.range 25).map fun i : ℕ =>
              900 * (⌊now / 900⌋ : ℚ) + 900 * (i : ℚ)).map
                fun t => max 0 (si.1 * (t - first.1) + si.2)) = (ft, preds) :=
          Except.ok.inj h2
        rw [Prod.mk.injEq] at h3
        obtain ⟨hft, hpreds⟩ := h3
        subst hft
        subst hpreds
        refine ⟨by simp, by simp, ?_, ⟨si.1, si.2, first.1, rfl⟩, ?_⟩
        · intro i hi
          simp [List.getElem?_map, List.getElem?_range, hi]
        · intro p hp
          rw [List.mem_map] at hp
          obtain ⟨t, -, ht⟩ := hp
          rw [← ht]
          exact le_max_left 0 _

/-- Witness for C4: a two-point CO2 series fitting the line
v = t / 12 + 400, with now = 1000 (so the first forecast instant is the
quarter-hour floor 900). -/
theorem forecast_shape_witness :
    (predict_data "CO2" [((0 : ℚ), (400 : ℚ)), (600, 450)] 1000).map
      (fun r => (r.1.length, r.2.length, r.1[0]?)) =
      Except.ok (25, 25, some (900 : ℚ)) := by
  have hwin : selectWindow "CO2" [((0 : ℚ), (400 : ℚ)), (600, 450)] 600 =
      [((0 : ℚ), (400 : ℚ)), (600, 450)] := by
    simp only [selectWindow]
    rw [if_neg (show ("CO2" : String) ∉ excludedKinds by decide)]
    rw [show findTurningPoint ([((0 : ℚ), (400 : ℚ)), (600, 450)].map Prod.snd) =
      Option.none from rfl]
    rw [if_neg (show ¬ ("CO2" : String) = "Light" by decide)]
    simp only [List.filter_cons, List.filter_nil]
    norm_num
  have hfit : forecastFit [((0 : ℚ), (400 : ℚ)), (600, 450)] =
      Except.ok (1 / 12, 400) := by
    simp only [forecastFit]
    rw [show ([((0 : ℚ), (400 : ℚ)), (600, 450)].head?) = some (0, 400) from rfl]
    simp only [List.map_cons, List.map_nil]
    norm_num [linregress]
  have hrun : predict_data "CO2" [((0 : ℚ), (400 : ℚ)), (600, 450)] 1000 =
      Except.ok ((List.range 25).map fun i : ℕ => (900 : ℚ) + 900 * (i : ℚ),
        ((List.range 25).map fun i : ℕ => (900 : ℚ) + 900 * (i : ℚ)).map
          fun t => max 0 (1 / 12 * t + 400)) := by
    unfold predict_data
    rw [show ([((0 : ℚ), (400 : ℚ)), (600, 450)].getLast?) = some (600, 450) from rfl]
    show forecastWindow (selectWindow "CO2" [((0 : ℚ), (400 : ℚ)), (600, 450)] 600) 1000 = _
    rw [hwin]
    unfold forecastWindow
    rw [show ([((0 : ℚ), (400 : ℚ)), (600, 450)].head?) = some (0, 400) from rfl]
    rw [hfit]
    have hfloor : (⌊(1000 : ℚ) / 900⌋ : ℤ) = 1 := by norm_num
    norm_num [hfloor]
  obtain ⟨h1, h2, h3, -, -⟩ :=
    forecast_shape "CO2" [((0 : ℚ), (400 : ℚ)), (600, 450)] 1000 _ _ hrun
  have h0 := h3 0 (by norm_num)
  rw [hrun]
  simp only [Except.map]
  rw [h1, h2, h0]
  norm_num

/-- C6 (refuted for the caller half): a history of two readings sharing one
timestamp passes the caller guard (more than one filtered point), the
selected window has a single distinct timestamp, and the resulting
linregress ValueError propagates out of show_current_data_forecast
uncaught — the caller does not treat the degenerate fit as "no prediction
available" and the evaluation of that sensor crashes. -/
theorem degenerate_window_crashes_caller :
    filterFuture [((400 : ℚ), (0 : ℚ)), (450, 0)] 0 = ([0, 0], [400, 450]) ∧
    show_current_data_forecast "CO2" [((400 : ℚ), (0 : ℚ)), (450, 0)] 0 =
      Except.error "ValueError" := by
  have hff : filterFuture [((400 : ℚ), (0 : ℚ)), (450, 0)] 0 = ([0, 0], [400, 450]) := rfl
  refine ⟨hff, ?_⟩
  have hwin : selectWindow "CO2" [((0 : ℚ), (400 : ℚ)), (0, 450)] 0 =
      [((0 : ℚ), (400 : ℚ)), (0, 450)] := by
    simp only [selectWindow]
    rw [if_neg (show ("CO2" : String) ∉ excludedKinds by decide)]
    rw [show findTurningPoint ([((0 : ℚ), (400 : ℚ)), (0, 450)].map Prod.snd) =
      Option.none from rfl]
    rw [if_neg (show ¬ ("CO2" : String) = "Light" by decide)]
    simp only [List.filter_cons, List.filter_nil]
    norm_num
  have hfit : forecastFit [((0 : ℚ), (400 : ℚ)), (0, 450)] =
      Except.error "ValueError" := by
    simp only [forecastFit]
    rw [show ([((0 : ℚ), (400 : ℚ)), (0, 450)].head?) = some (0, 400) from rfl]
    simp only [List.map_cons, List.map_nil]
    norm_num [linregress]
  have hpred : predict_data "CO2" [((0 : ℚ), (400 : ℚ)), (0, 450)] 0 =
      Except.error "ValueError" := by
    unfold predict_data
    rw [show ([((0 : ℚ), (400 : ℚ)), (0, 450)].getLast?) = some (0, 450) from rfl]
    show forecastWindow (selectWindow "CO2" [((0 : ℚ), (400 : ℚ)), (0, 450)] 0) 0 = _
    rw [hwin]
    unfold forecastWindow
    rw [show ([((0 : ℚ), (400 : ℚ)), (0, 450)].head?) = some (0, 400) from rfl]
    rw [hfit]
  simp only [show_current_data_forecast]
  rw [hff]
  rw [if_pos (show 1 < ([(0 : ℚ), 0] : List ℚ).length by norm_num)]
  rw [show (([(0 : ℚ), 0] : List ℚ).zip ([400, 450] : List ℚ)) =
    [((0 : ℚ), (400 : ℚ)), (0, 450)] from rfl]
  rw [hpred]
  rfl

end Multisensor
